import Mathlib

/-
Verification of the clixon XPath 1.0 engine slice (xpath tree model,
tree-equality pattern matcher, unparser, namespace canonicalizer, parse
wrapper and the nodeset-API entry points), shallowly embedded from the C
source.  C in-out parameters become explicit state passing; the few
collaborator functions whose sources live outside the examined slice
(clicon_strcmp, xml_nsctx lookup, yang module lookup, the generated yacc
parser, xml_flag) are modelled from their documented contracts and marked
as such.  Machine doubles that can only hold finite parsed literals are
modelled as rationals; where NaN is reachable (evaluation contexts) a
dedicated type models C float comparison semantics.
-/

/-! ## Parse-tree model -/

/-- Node kinds of the xpath parse tree, after the enum in the source's
`xpath_tree_map` table (18 variants). -/
inductive XpType where
  | XP_EXP | XP_AND | XP_RELEX | XP_ADD | XP_UNION | XP_PATHEXPR | XP_FILTEREXPR
  | XP_LOCPATH | XP_ABSPATH | XP_RELLOCPATH | XP_STEP | XP_NODE | XP_NODE_FN
  | XP_PRED | XP_PRI0 | XP_PRIME_NR | XP_PRIME_STR | XP_PRIME_FN
  deriving DecidableEq, Repr

/-- Modelled from the spec: the numeric values of the axis enum come from a
header outside the examined slice; only their distinctness and identity
matter here, so they are fixed integers in the order of the source's
`axis_type_map` table. -/
def A_NAN : Int := 0
def A_ANCESTOR : Int := 1
def A_ANCESTOR_OR_SELF : Int := 2
def A_ATTRIBUTE : Int := 3
def A_CHILD : Int := 4
def A_DESCENDANT : Int := 5
def A_DESCENDANT_OR_SELF : Int := 6
def A_FOLLOWING : Int := 7
def A_FOLLOWING_SIBLING : Int := 8
def A_NAMESPACE : Int := 9
def A_PARENT : Int := 10
def A_PRECEDING : Int := 11
def A_PRECEDING_SIBLING : Int := 12
def A_SELF : Int := 13
def A_ROOT : Int := 14

/-- The xpath parse-tree node: kind, integer operand (operator or axis
code), double operand, two operand strings s0/s1, the lexical spelling of a
numeric literal, the wildcard match flag, and two optional owned children.
The C double operand holds values produced by strtod on digit-string
literals, which are always finite, so it is modelled as a rational. -/
inductive xpath_tree : Type where
  | mk (xs_type : XpType) (xs_int : Int) (xs_double : Rat)
       (xs_s0 xs_s1 xs_strnr : Option String) (xs_match : Bool)
       (xs_c0 xs_c1 : Option xpath_tree) : xpath_tree

/-- Node kind accessor. -/
def xpath_tree.ty : xpath_tree → XpType
  | .mk t _ _ _ _ _ _ _ _ => t

/-- Integer operand accessor. -/
def xpath_tree.xint : xpath_tree → Int
  | .mk _ i _ _ _ _ _ _ _ => i

/-- Double operand accessor. -/
def xpath_tree.xdouble : xpath_tree → Rat
  | .mk _ _ d _ _ _ _ _ _ => d

/-- First operand string accessor. -/
def xpath_tree.s0 : xpath_tree → Option String
  | .mk _ _ _ s _ _ _ _ _ => s

/-- Second operand string accessor. -/
def xpath_tree.s1 : xpath_tree → Option String
  | .mk _ _ _ _ s _ _ _ _ => s

/-- Numeric-literal spelling accessor. -/
def xpath_tree.strnr : xpath_tree → Option String
  | .mk _ _ _ _ _ s _ _ _ => s

/-- Wildcard match flag accessor. -/
def xpath_tree.xmatch : xpath_tree → Bool
  | .mk _ _ _ _ _ _ m _ _ => m

/-- First child accessor. -/
def xpath_tree.c0 : xpath_tree → Option xpath_tree
  | .mk _ _ _ _ _ _ _ c _ => c

/-- Second child accessor. -/
def xpath_tree.c1 : xpath_tree → Option xpath_tree
  | .mk _ _ _ _ _ _ _ _ c => c

mutual
/-- Number of nodes of a tree; used as an induction measure. -/
def xtsize : xpath_tree → Nat
  | .mk _ _ _ _ _ _ _ c0 c1 => 1 + oxtsize c0 + oxtsize c1
/-- Number of nodes under an optional child slot. -/
def oxtsize : Option xpath_tree → Nat
  | none => 0
  | some t => xtsize t
end

/-! ## Tree equality / pattern matcher -/

/-- Modelled from the spec: clicon_strcmp lives in the string utility file
outside the examined slice; per its documented contract it is strcmp
extended to NULL, where NULL equals only NULL and sorts before every
string.  Result 0 means equal. -/
def clicon_strcmp : Option String → Option String → Int
  | none, none => 0
  | none, some _ => -1
  | some _, none => 1
  | some a, some b => if a = b then 0 else if a < b then -1 else 1

/-- Append one tree pointer to the capture vector (xpath_tree_append in the
source, with the realloc-failure path out of scope of the model). -/
def xpath_tree_append (xt : xpath_tree) (vec : List xpath_tree) :
    List xpath_tree :=
  vec ++ [xt]

mutual
/-- Check if two xpath-trees are equal (xpath_tree_eq in the source).
First operand is the pattern.  The C in-out capture vector becomes explicit
state: the function returns the equality verdict together with the final
vector, which keeps appends made before a mismatch was found, exactly as
the C code does.  The C -1 return exists only for realloc failure and is
out of scope of the model. -/
def xpath_tree_eq (xt1 xt2 : xpath_tree) (vec : List xpath_tree) :
    Bool × List xpath_tree :=
  match xt1, xt2 with
  | .mk t1 i1 d1 s01 s11 _ m1 c01 c11, .mk t2 i2 d2 s02 s12 n2 m2 c02 c12 =>
    /- node type, with the special case that both are literal primary
       expressions but of different types -/
    if t1 ≠ t2 ∧
       ¬((t1 = XpType.XP_PRIME_NR ∨ t1 = XpType.XP_PRIME_STR) ∧
         (t2 = XpType.XP_PRIME_NR ∨ t2 = XpType.XP_PRIME_STR)) then
      (false, vec)
    /- check match, if set, store and go directly to ok -/
    else if m1 then
      (true, xpath_tree_append (.mk t2 i2 d2 s02 s12 n2 m2 c02 c12) vec)
    else if i1 ≠ i2 then (false, vec)
    else if d1 ≠ d2 then (false, vec)
    else if clicon_strcmp s01 s02 ≠ 0 then (false, vec)
    else if clicon_strcmp s11 s12 ≠ 0 then (false, vec)
    else
      let r0 := xpath_tree_eq_child c01 c02 vec
      if ¬ r0.1 then (false, r0.2)
      else
        let r1 := xpath_tree_eq_child c11 c12 r0.2
        if ¬ r1.1 then (false, r1.2) else (true, r1.2)

/-- Comparison of one child slot: absence in both trees is equality for the
slot, presence in exactly one is inequality, presence in both recurses. -/
def xpath_tree_eq_child :
    Option xpath_tree → Option xpath_tree → List xpath_tree →
    Bool × List xpath_tree
  | none, none, vec => (true, vec)
  | none, some _, vec => (false, vec)
  | some _, none, vec => (false, vec)
  | some a, some b, vec => xpath_tree_eq a b vec
end

mutual
/-- The subtrees a self-match captures: the outermost match-flagged nodes in
preorder (node, then first child, then second child); recursion does not
descend below a flagged node because the comparison short-circuits there. -/
def capturesOf : xpath_tree → List xpath_tree
  | .mk ty i d s0 s1 nr m c0 c1 =>
    if m then [.mk ty i d s0 s1 nr m c0 c1]
    else ocapturesOf c0 ++ ocapturesOf c1
/-- Captures under an optional child slot. -/
def ocapturesOf : Option xpath_tree → List xpath_tree
  | none => []
  | some t => capturesOf t
end

/-! ## Unparser -/

/-- Modelled from the spec: the operator string table xpopmap lives in the
evaluator file outside the examined slice; the spellings are the operator
spellings of the grammar (and or div mod + * - != >= <= < > = |) and the
codes are fixed distinct integers, whose numeric values are not observable
in the slice. -/
def xpopmap : List (Int × String) :=
  [(0, "and"), (1, "or"), (2, "div"), (3, "mod"), (4, "+"), (5, "*"),
   (6, "-"), (7, "!="), (8, ">="), (9, "<="), (10, "<"), (11, ">"),
   (12, "="), (13, "|")]

/-- Modelled from the spec: clicon_int2str finds the string of a code in a
static table or returns NULL; a NULL fed to printf %s prints as shown. -/
def clicon_int2str (tbl : List (Int × String)) (code : Int) : String :=
  match tbl.find? (fun e => e.1 = code) with
  | some e => e.2
  | none => "(null)"

/-- Value of an optional C string under printf %s (glibc prints NULL as
shown). -/
def cstr : Option String → String
  | none => "(null)"
  | some s => s

/-- Create an xpath string from an xpath tree, ie unparsing
(xpath_tree2cbuf in the source); the cbuf out-parameter becomes a returned
string, appended in exactly the order the C code cprintf:s its pieces. -/
def xpath_tree2cbuf : xpath_tree → String
  | .mk ty i _ s0 s1 strnr _ c0 c1 =>
    /- 1. Before first child -/
    (match ty with
     | .XP_ABSPATH => (if i = A_DESCENDANT_OR_SELF then "/" else "") ++ "/"
     | .XP_STEP =>
       if i = A_SELF then "." else if i = A_PARENT then ".." else ""
     | .XP_NODE => /- s0 is namespace prefix, s1 is name -/
       (match s0 with | some p => p ++ ":" | none => "") ++ cstr s1
     | .XP_PRIME_NR => (match strnr with | some n => n | none => "0")
     | .XP_PRIME_STR => "'" ++ (match s0 with | some s => s | none => "") ++ "'"
     | .XP_PRIME_FN => (match s0 with | some f => f ++ "(" | none => "")
     | _ => "")
    /- 2. First child -/
    ++ (match c0 with | none => "" | some a => xpath_tree2cbuf a)
    /- 3. Between first and second child -/
    ++ (match ty with
        | .XP_AND | .XP_ADD =>
          (match c1 with
           | some _ => " " ++ clicon_int2str xpopmap i ++ " "
           | none => "")
        | .XP_RELEX | .XP_UNION =>
          (match c1 with
           | some _ => clicon_int2str xpopmap i
           | none => "")
        | .XP_PATHEXPR => (match s0 with | some s => s | none => "")
        | .XP_RELLOCPATH =>
          (match c1 with
           | some _ => (if i = A_DESCENDANT_OR_SELF then "/" else "") ++ "/"
           | none => "")
        | .XP_PRED => (match c1 with | some _ => "[" | none => "")
        | .XP_EXP =>
          (match c0, c1 with | some _, some _ => "," | _, _ => "")
        | _ => "")
    /- 4. Second child -/
    ++ (match c1 with | none => "" | some b => xpath_tree2cbuf b)
    /- 5. After second child -/
    ++ (match ty with
        | .XP_PRED => (match c1 with | some _ => "]" | none => "")
        | .XP_PRIME_FN => (match s0 with | some _ => ")" | none => "")
        | _ => "")

/-! ## Canonicalizer -/

/-- Modelled from the spec: a yang module as the schema registry sees it:
its name, the namespace it owns, and the prefix it declares for itself
(absent when the module declares none). -/
structure yang_module where
  yname : String
  yns : String
  ypfx : Option String
  deriving DecidableEq, Repr

/-- Modelled from the spec: yang_find_module_by_namespace asks the schema
registry which module owns a namespace. -/
def yang_find_module_by_namespace (yspec : List yang_module) (ns : String) :
    Option yang_module :=
  yspec.find? (fun m => m.yns = ns)

/-- Modelled from the spec: yang_find_myprefix returns the module's own
declared prefix, or NULL when it declares none. -/
def yang_find_mypfx (m : yang_module) : Option String :=
  m.ypfx

/-- Modelled from the spec: a namespace context is an ordered collection of
(prefix, namespace) pairs where the prefix may be NULL for the default
namespace; xml_nsctx_get looks a prefix up. -/
def xml_nsctx_get (nsc : List (Option String × String))
    (pfx : Option String) : Option String :=
  (nsc.find? (fun e => e.1 = pfx)).map (fun e => e.2)

/-- Lookup in the output namespace context, whose prefixes are the non-NULL
canonical module prefixes. -/
def nsc1_get (nsc : List (String × String)) (pfx : String) : Option String :=
  (nsc.find? (fun e => e.1 = pfx)).map (fun e => e.2)

/-- Modelled from the spec: xml_nsctx_add appends a (prefix, namespace)
pair to a namespace context. -/
def xml_nsctx_add (nsc : List (String × String)) (pfx ns : String) :
    List (String × String) :=
  nsc ++ [(pfx, ns)]

/-- Result of traverse_canonical: XPath failure with a reason, or success
with the rewritten tree and the accumulated output namespace context.  The
C -1 return exists only for allocation failure and is out of scope of the
model. -/
inductive TravResult where
  | failed (reason : String)
  | ok (xs : xpath_tree) (nsc1 : List (String × String))

/-- Result of handling one child slot during canonicalization: a failure
reason, or the rewritten slot and the updated output context. -/
inductive CTravResult where
  | cfailed (reason : String)
  | cok (c : Option xpath_tree) (nsc1 : List (String × String))

/-- The XP_NODE case of traverse_canonical, acting on one node-test: skip
the wildcard *, otherwise resolve prefix, namespace, owning module and the
module's own prefix, add the canonical pair to nsc1 unless its prefix is
already bound there, and rewrite the stored prefix when it differs from the
canonical one; non-node-test kinds pass through unchanged. -/
def traverse_self (yspec : List yang_module)
    (nsc0 : List (Option String × String)) (ty : XpType)
    (s0 s1 : Option String) (nsc1 : List (String × String)) :
    (Option String × List (String × String)) ⊕ String :=
  if ty = XpType.XP_NODE ∧ ¬(s1 = some "*") then
    /- s0 is namespace prefix, s1 is name; nodetest = * needs none -/
    match xml_nsctx_get nsc0 s0 with
    | none => .inr ("No namespace found for prefix: " ++ cstr s0)
    | some ns =>
      match yang_find_module_by_namespace yspec ns with
      | none => .inr ("No modules found for namespace: " ++ ns)
      | some ymod =>
        match yang_find_mypfx ymod with
        | none => .inr ("No prefix found in module: " ++ ymod.yname)
        | some pfx1 =>
          let nsc1' := if nsc1_get nsc1 pfx1 = none then
              xml_nsctx_add nsc1 pfx1 ns else nsc1
          let s0' := if s0 = none ∨ ¬(s0 = some pfx1) then some pfx1
              else s0
          .inl (s0', nsc1')
  else .inl (s0, nsc1)

mutual
/-- Translate an xpath tree to canonical form using yang prefixes
(traverse_canonical in the source): for every node-test (except the
wildcard *), resolve its prefix through the input context nsc0 to a
namespace, find the owning module and that module's own prefix, record the
canonical (prefix, namespace) pair in nsc1 unless the prefix is already
bound there, and rewrite the stored prefix when it differs from the
canonical one; then recurse into both children.  The C code mutates the
tree and nsc1 in place; the model passes both explicitly. -/
def traverse_canonical (yspec : List yang_module)
    (nsc0 : List (Option String × String)) :
    xpath_tree → List (String × String) → TravResult
  | .mk ty i d s0 s1 strnr m c0 c1, nsc1 =>
    match traverse_self yspec nsc0 ty s0 s1 nsc1 with
    | .inr reason => .failed reason
    | .inl (s0', nsc1') =>
      match traverse_child yspec nsc0 c0 nsc1' with
      | .cfailed r => .failed r
      | .cok c0' nsc1a =>
        match traverse_child yspec nsc0 c1 nsc1a with
        | .cfailed r => .failed r
        | .cok c1' nsc1b =>
          .ok (.mk ty i d s0' s1 strnr m c0' c1') nsc1b

/-- Canonicalization of one child slot: an absent child is left absent (the
C code only recurses on present children). -/
def traverse_child (yspec : List yang_module)
    (nsc0 : List (Option String × String)) :
    Option xpath_tree → List (String × String) → CTravResult
  | none, nsc1 => .cok none nsc1
  | some a, nsc1 =>
    match traverse_canonical yspec nsc0 a nsc1 with
    | .failed r => .cfailed r
    | .ok a' nsc1' => .cok (some a') nsc1'
end

/-- Result of xpath2canonical: fatal error (parse or allocation failure,
C return -1), XPath policy failure with a human-readable reason (C return
0), or success with the rewritten xpath string and the output namespace
context (C return 1). -/
inductive CanonResult where
  | fatal
  | failed (reason : String)
  | ok (xpath1 : String) (nsc1 : List (String × String))

/-- Translate an xpath/nsc pair to canonical form using yang prefixes
(xpath2canonical in the source): parse the input xpath (the parse outcome
enters the model as an Option, none standing for a parse failure), start
from an empty output namespace context, traverse, and unparse the
rewritten tree.  Allocation failures are out of scope of the model. -/
def xpath2canonical (parse0 : Option xpath_tree)
    (nsc0 : List (Option String × String)) (yspec : List yang_module) :
    CanonResult :=
  match parse0 with
  | none => .fatal
  | some xpt =>
    match traverse_canonical yspec nsc0 xpt [] with
    | .failed r => .failed r
    | .ok xpt' nsc1 => .ok (xpath_tree2cbuf xpt') nsc1

/-- Per-node resolution through the three registry stages: the canonical
(prefix, namespace) pair of a node-test prefix, or none when any stage
fails. -/
def node_resolve (yspec : List yang_module)
    (nsc0 : List (Option String × String)) (s0 : Option String) :
    Option (String × String) :=
  match xml_nsctx_get nsc0 s0 with
  | none => none
  | some ns =>
    match yang_find_module_by_namespace yspec ns with
    | none => none
    | some ymod =>
      match yang_find_mypfx ymod with
      | none => none
      | some pfx1 => some (pfx1, ns)

/-- Whether a node is a node-test that needs prefix resolution (every
XP_NODE except the wildcard *). -/
def needs_resolution : xpath_tree → Bool
  | .mk ty _ _ _ s1 _ _ _ _ =>
    ty = XpType.XP_NODE && ¬(s1 = some "*")

mutual
/-- Whether some node-test in the tree fails prefix resolution: no
namespace bound to its prefix, or no module owning the namespace, or no
prefix declared by the module. -/
def tree_resolution_fails (yspec : List yang_module)
    (nsc0 : List (Option String × String)) : xpath_tree → Bool
  | .mk ty i d s0 s1 strnr m c0 c1 =>
    (needs_resolution (.mk ty i d s0 s1 strnr m c0 c1)
      && (node_resolve yspec nsc0 s0).isNone)
    || otree_resolution_fails yspec nsc0 c0
    || otree_resolution_fails yspec nsc0 c1
/-- Resolution failure under an optional child slot. -/
def otree_resolution_fails (yspec : List yang_module)
    (nsc0 : List (Option String × String)) : Option xpath_tree → Bool
  | none => false
  | some a => tree_resolution_fails yspec nsc0 a
end

mutual
/-- The canonical (prefix, namespace) pairs actually used by the tree's
node-tests, in traversal order. -/
def canon_pairs (yspec : List yang_module)
    (nsc0 : List (Option String × String)) : xpath_tree → List (String × String)
  | .mk ty i d s0 s1 strnr m c0 c1 =>
    (if needs_resolution (.mk ty i d s0 s1 strnr m c0 c1) then
       (match node_resolve yspec nsc0 s0 with
        | some pr => [pr]
        | none => [])
     else [])
    ++ ocanon_pairs yspec nsc0 c0 ++ ocanon_pairs yspec nsc0 c1
/-- Used canonical pairs under an optional child slot. -/
def ocanon_pairs (yspec : List yang_module)
    (nsc0 : List (Option String × String)) :
    Option xpath_tree → List (String × String)
  | none => []
  | some a => canon_pairs yspec nsc0 a
end

mutual
/-- Specification-side rewrite, following the spec's words for the
canonicalizer: visit every node-test; a wildcard node test needs no
resolution and is left untouched; otherwise, when the stored prefix
differs from the owning module's canonical prefix (or is absent), mutate
it to the canonical prefix.  Compared against traverse_canonical. -/
def canon_rewrite_spec (yspec : List yang_module)
    (nsc0 : List (Option String × String)) : xpath_tree → xpath_tree
  | .mk ty i d s0 s1 strnr m c0 c1 =>
    let s0' :=
      if needs_resolution (.mk ty i d s0 s1 strnr m c0 c1) then
        match node_resolve yspec nsc0 s0 with
        | some pr => if s0 = none ∨ ¬(s0 = some pr.1) then some pr.1 else s0
        | none => s0
      else s0
    .mk ty i d s0' s1 strnr m
      (ocanon_rewrite_spec yspec nsc0 c0) (ocanon_rewrite_spec yspec nsc0 c1)
/-- Specification-side rewrite of an optional child slot. -/
def ocanon_rewrite_spec (yspec : List yang_module)
    (nsc0 : List (Option String × String)) :
    Option xpath_tree → Option xpath_tree
  | none => none
  | some a => some (canon_rewrite_spec yspec nsc0 a)
end

/-! ## Parse wrapper -/

/-- Final state of the generated yacc parser run (clixon_xpath_yacc):
whether clixon_xpath_parseparse returned 0, the line counter after the run,
and whatever top tree was built (possibly partial on failure).  The
generated parser is outside the examined slice, so a run enters the model
as a function of the input string and the initial line number. -/
structure clixon_xpath_yacc where
  success : Bool
  xpy_linenum : Nat
  xpy_top : Option xpath_tree

/-- Observable result of xpath_parse: the return status, the tree delivered
to the caller, the line number recorded on a syntax error, and the trees
handed to xpath_tree_free before returning. -/
structure ParseRet where
  retval : Int
  xptree : Option xpath_tree
  logged_linenum : Option Nat
  freed : List xpath_tree

/-- Given an xpath, parse it and return a structured xpath tree
(xpath_parse in the source): a NULL xpath is rejected before the parser
runs; the line counter is initialized to 1; on a parser failure the line
number is logged, whatever partial tree the parser built is freed, and no
tree reaches the caller; on success the built tree is handed over (and
hence not freed).  Allocation failures inside the wrapper are out of scope
of the model. -/
def xpath_parse (xpath : Option String)
    (run : String → Nat → clixon_xpath_yacc) : ParseRet :=
  match xpath with
  | none => { retval := -1, xptree := none, logged_linenum := none, freed := [] }
  | some s =>
    let xpy := run s 1
    if xpy.success then
      { retval := 0, xptree := xpy.xpy_top, logged_linenum := none, freed := [] }
    else
      { retval := -1, xptree := none, logged_linenum := some xpy.xpy_linenum,
        freed := xpy.xpy_top.toList }

/-- Modelled from the spec: the grammar rejects the empty query as a syntax
error (the generated parser is outside the examined slice); on every other
input it behaves as the underlying run. -/
def xpy_run_rejecting_empty (run : String → Nat → clixon_xpath_yacc) :
    String → Nat → clixon_xpath_yacc :=
  fun s l =>
    if s = "" then { success := false, xpy_linenum := l, xpy_top := none }
    else run s l

/-! ## Evaluation API entry points -/

/-- Borrowed reference into the caller's XML tree (cxobj handle). -/
abbrev cxobj := Nat

/-- Machine double as C compares it: NaN or a finite value.  Reachable in
evaluation contexts through XPath number semantics. -/
inductive cdouble where
  | nan
  | val (q : Rat)
  deriving DecidableEq, Repr

/-- C != on doubles: any comparison involving NaN is unordered, so != is
true; on finite values it is value inequality. -/
def cdouble.cne : cdouble → cdouble → Bool
  | .nan, _ => true
  | _, .nan => true
  | .val a, .val b => a ≠ b

/-- C conversion (uint32_t)d: defined only for finite values that truncate
into the uint32 range; NaN and out-of-range values are undefined behavior,
modelled as none. -/
def cdouble.toUInt32 : cdouble → Option Nat
  | .nan => none
  | .val q => if 0 ≤ q ∧ q < (4294967296 : Rat) then some q.floor.toNat else none

/-- Typed evaluation context (xp_ctx): exactly one of nodeset, boolean,
number or string. -/
inductive xp_ctx where
  | nodeset (ns : List cxobj)
  | boolv (b : Bool)
  | num (d : cdouble)
  | strv (s : String)

/-- Outcome of xpath_vec_ctx (parse plus evaluation) as its callers see it:
a negative status, or success with the context xp_eval produced (an absent
context left the output pointer NULL).  The parser and evaluator are
outside the examined slice, so the outcome enters each entry-point model as
a parameter; everything after that point is translated from the entry
point's code. -/
inductive EvalOutcome where
  | err
  | ok (xr : Option xp_ctx)

/-- First-match entry point (xpath_first in the source): on a successful
evaluation whose context is a non-empty nodeset, the first node; in every
other case - error, missing context, non-nodeset context, or empty
nodeset - NULL. -/
def xpath_first (outcome : EvalOutcome) : Option cxobj :=
  match outcome with
  | .err => none
  | .ok xr =>
    match xr with
    | some (.nodeset ns) => ns.head?
    | _ => none

/-- Nodeset entry point (xpath_vec in the source): none models the C -1
return; on success the nodeset is handed out (empty when the context is
absent or not a nodeset). -/
def xpath_vec (outcome : EvalOutcome) : Option (List cxobj) :=
  match outcome with
  | .err => none
  | .ok xr =>
    match xr with
    | some (.nodeset ns) => some ns
    | _ => some []

/-- Flag-filtered nodeset entry point (xpath_vec_flag in the source): the
external flag test xml_flag lives outside the examined slice and enters as
a parameter; a node is kept when flags is 0 or its flag test is nonzero;
a missing or non-nodeset context yields a successful empty vector. -/
def xpath_vec_flag (outcome : EvalOutcome) (flags : Nat)
    (xml_flag : cxobj → Nat → Nat) : Option (List cxobj) :=
  match outcome with
  | .err => none
  | .ok xr =>
    match xr with
    | some (.nodeset ns) =>
      some (ns.filter (fun x => flags = 0 || xml_flag x flags ≠ 0))
    | _ => some []

/-- Observable result of xpath_count: the return status and the count
written through the out pointer (none when the call failed before writing
it, or when the written value is the result of an undefined conversion). -/
structure CountRet where
  retval : Int
  cnt : Option Nat
  deriving DecidableEq, Repr

/-- Count entry point (xpath_count in the source, after evaluating
count(xpath)): the guard compares the context's number against NAN with
!=, and only when the guard holds casts the double to uint32_t; otherwise
it writes 0. -/
def xpath_count (outcome : EvalOutcome) : CountRet :=
  match outcome with
  | .err => { retval := -1, cnt := none }
  | .ok xr =>
    match xr with
    | some (.num d) =>
      if cdouble.cne d .nan then { retval := 0, cnt := d.toUInt32 }
      else { retval := 0, cnt := some 0 }
    | _ => { retval := 0, cnt := some 0 }

/-! ## Concrete instances used by the theorems -/

/-- A match-flagged node-test pattern node. -/
def c2pat : xpath_tree :=
  .mk .XP_NODE 0 0 none (some "a") none true none none

/-- A candidate node of a different kind (a step). -/
def c2cand : xpath_tree :=
  .mk .XP_STEP A_CHILD 0 none (some "a") none false none none

/-- A match-flagged node-test. -/
def c3inner : xpath_tree :=
  .mk .XP_NODE 0 0 none (some "b") none true none none

/-- A match-flagged node whose first child is itself match-flagged. -/
def c3outer : xpath_tree :=
  .mk .XP_NODE 0 0 none (some "a") none true (some c3inner) none

/-- A numeric-literal primary node. -/
def c4nr : xpath_tree :=
  .mk .XP_PRIME_NR 0 5 none none (some "5") false none none

/-- A string-literal primary node agreeing with c4nr on every compared
operand. -/
def c4str : xpath_tree :=
  .mk .XP_PRIME_STR 0 5 none none none false none none

/-- A plain node-test with prefix x. -/
def c5node : xpath_tree :=
  .mk .XP_NODE 0 0 (some "x") (some "n1") none false none none

/-- A partial tree a failing parser run may have built. -/
def c7partial : xpath_tree :=
  .mk .XP_EXP 0 0 none none none false none none

/-- A parser run that fails on line 3 leaving a partial tree. -/
def c7run : String → Nat → clixon_xpath_yacc :=
  fun _ l => { success := false, xpy_linenum := l + 2, xpy_top := some c7partial }

/-- Two modules that declare the same canonical prefix p for different
namespaces. -/
def c6yspec : List yang_module :=
  [{ yname := "modA", yns := "urn:a", ypfx := some "p" },
   { yname := "modB", yns := "urn:b", ypfx := some "p" }]

/-- Input namespace context binding x and y to the two namespaces. -/
def c6nsc0 : List (Option String × String) :=
  [(some "x", "urn:a"), (some "y", "urn:b")]

/-- Node-test with prefix y. -/
def c6nodeY : xpath_tree :=
  .mk .XP_NODE 0 0 (some "y") (some "n2") none false none none

/-- A tree holding two node-tests, one per module. -/
def c6tree : xpath_tree :=
  .mk .XP_EXP 0 0 none none none false (some c5node) (some c6nodeY)

/-- The c6tree after canonical rewriting: both node-tests carry the
canonical prefix p. -/
def c6rewritten : xpath_tree :=
  .mk .XP_EXP 0 0 none none none false
    (some (.mk .XP_NODE 0 0 (some "p") (some "n1") none false none none))
    (some (.mk .XP_NODE 0 0 (some "p") (some "n2") none false none none))

/-! ## Theorems -/

/-- Helper: clicon_strcmp of a string with itself is 0. -/
theorem clicon_strcmp_self (s : Option String) : clicon_strcmp s s = 0 := by
  cases s with
  | none => rfl
  | some a => simp [clicon_strcmp]

/-- C1 counterexample: xpath_first returns NULL both on an evaluation error
and on a successful evaluation whose result is the empty nodeset, so at
this API boundary the two are not distinguishable. -/
theorem xpath_first_error_eq_empty_nodeset :
    xpath_first .err = xpath_first (.ok (some (.nodeset []))) ∧
    xpath_first .err = none :=
  ⟨rfl, rfl⟩

/-- C1 (amended): xpath_vec distinguishes error from no-match - it returns
the error status exactly on an evaluation error and otherwise succeeds with
a (possibly empty) vector - while xpath_first maps error, missing context
and empty nodeset alike to NULL. -/
theorem xpath_vec_none_iff_error :
    ∀ o : EvalOutcome,
      (xpath_vec o = none ↔ o = .err) ∧
      xpath_first EvalOutcome.err = none ∧
      xpath_first (.ok (some (.nodeset []))) = none := by
  intro o
  refine ⟨?_, rfl, rfl⟩
  cases o with
  | err => simp [xpath_vec]
  | ok xr =>
    cases xr with
    | none => simp [xpath_vec]
    | some c => cases c <;> simp [xpath_vec]

/-- C7: when the parser run fails, xpath_parse returns -1, records the line
number the parser stopped at (the counter having been initialized to 1),
delivers no tree to the caller, and frees the partial tree the parser had
built. -/
theorem xpath_parse_syntax_error (s : String)
    (run : String → Nat → clixon_xpath_yacc)
    (hfail : (run s 1).success = false) :
    (xpath_parse (some s) run).retval = -1 ∧
    (xpath_parse (some s) run).xptree = none ∧
    (xpath_parse (some s) run).logged_linenum = some (run s 1).xpy_linenum ∧
    ∀ t, (run s 1).xpy_top = some t → t ∈ (xpath_parse (some s) run).freed := by
  refine ⟨?_, ?_, ?_, ?_⟩
  · simp [xpath_parse, hfail]
  · simp [xpath_parse, hfail]
  · simp [xpath_parse, hfail]
  · intro t ht
    simp [xpath_parse, hfail, ht]

/-- C7 witness: a run failing at line 3 with a partial tree. -/
theorem xpath_parse_syntax_error_witness :
    (xpath_parse (some "a[") c7run).retval = -1 ∧
    (xpath_parse (some "a[") c7run).logged_linenum = some 3 ∧
    c7partial ∈ (xpath_parse (some "a[") c7run).freed := by
  have h := xpath_parse_syntax_error "a[" c7run rfl
  exact ⟨h.1, h.2.2.1, h.2.2.2 c7partial rfl⟩

/-- C8: a NULL xpath is rejected by the wrapper before the parser runs, and
an empty xpath is rejected by the grammar; in both cases the status is an
error and no parse tree is produced. -/
theorem xpath_parse_rejects_null_and_empty :
    ∀ run : String → Nat → clixon_xpath_yacc,
      (xpath_parse none (xpy_run_rejecting_empty run)).retval = -1 ∧
      (xpath_parse none (xpy_run_rejecting_empty run)).xptree = none ∧
      (xpath_parse (some "") (xpy_run_rejecting_empty run)).retval = -1 ∧
      (xpath_parse (some "") (xpy_run_rejecting_empty run)).xptree = none := by
  intro run
  refine ⟨rfl, rfl, ?_, ?_⟩ <;> simp [xpath_parse, xpy_run_rejecting_empty]

/-- C9: the NaN guard of xpath_count is vacuous - C != is true whenever
either operand is NaN - so a NaN number result takes the cast branch and
the written count is the undefined (uint32_t)NaN conversion, not the 0 the
claim requires. -/
theorem xpath_count_nan_guard_broken :
    (∀ d : cdouble, cdouble.cne d .nan = true) ∧
    xpath_count (.ok (some (.num .nan))) = { retval := 0, cnt := none } := by
  refine ⟨?_, rfl⟩
  intro d
  cases d <;> rfl

/-- C10: on a successful evaluation with a nodeset context, flags 0 returns
the whole nodeset unfiltered and in order, and nonzero flags return exactly
the subsequence whose external flag test is nonzero; a missing or
non-nodeset context still succeeds with an empty vector. -/
theorem xpath_vec_flag_filters :
    ∀ (flagfn : cxobj → Nat → Nat) (flags : Nat) (ns : List cxobj),
      (flags = 0 →
        xpath_vec_flag (.ok (some (.nodeset ns))) flags flagfn = some ns) ∧
      (flags ≠ 0 →
        xpath_vec_flag (.ok (some (.nodeset ns))) flags flagfn =
          some (ns.filter (fun x => flagfn x flags ≠ 0))) ∧
      xpath_vec_flag (.ok none) flags flagfn = some [] ∧
      (∀ b, xpath_vec_flag (.ok (some (.boolv b))) flags flagfn = some []) ∧
      (∀ d, xpath_vec_flag (.ok (some (.num d))) flags flagfn = some []) ∧
      (∀ s, xpath_vec_flag (.ok (some (.strv s))) flags flagfn = some []) := by
  intro flagfn flags ns
  refine ⟨?_, ?_, rfl, fun b => rfl, fun d => rfl, fun s => rfl⟩
  · intro h0
    subst h0
    simp [xpath_vec_flag]
  · intro hne
    simp [xpath_vec_flag, hne]

/-- C10 witness: flags 0 keeps both nodes; flags 2 with a parity flag test
keeps only the odd node. -/
theorem xpath_vec_flag_filters_witness :
    xpath_vec_flag (.ok (some (.nodeset [5, 4]))) 0 (fun _ _ => 0) =
      some [5, 4] ∧
    xpath_vec_flag (.ok (some (.nodeset [5, 4]))) 2 (fun x _ => x % 2) =
      some [5] := by
  constructor
  · exact (xpath_vec_flag_filters (fun _ _ => 0) 0 [5, 4]).1 rfl
  · have h := (xpath_vec_flag_filters (fun x _ => x % 2) 2 [5, 4]).2.1 (by decide)
    rw [h]
    rfl

/-- Helper: every tree has at least one node. -/
theorem xtsize_pos : ∀ t : xpath_tree, 0 < xtsize t := by
  intro t
  cases t with
  | mk ty i d s0 s1 nr m c0 c1 => simp [xtsize]

/-- Helper: matching a tree against itself succeeds and appends exactly the
outermost match-flagged subtrees, in preorder; proved by strong induction
on the tree size. -/
theorem xpath_tree_eq_self :
    ∀ (n : Nat) (t : xpath_tree) (vec : List xpath_tree), xtsize t ≤ n →
      xpath_tree_eq t t vec = (true, vec ++ capturesOf t) := by
  intro n
  induction n with
  | zero =>
    intro t vec h
    have := xtsize_pos t
    omega
  | succ n ih =>
    intro t vec h
    cases t with
    | mk ty i d s0 s1 nr m c0 c1 =>
      rw [xpath_tree_eq, capturesOf]
      rw [if_neg (by simp)]
      by_cases hm : m
      · rw [if_pos hm, if_pos hm]
        simp [xpath_tree_append]
      · rw [if_neg hm, if_neg hm]
        rw [if_neg (by simp)]
        rw [if_neg (by simp)]
        rw [if_neg (by simp [clicon_strcmp_self])]
        rw [if_neg (by simp [clicon_strcmp_self])]
        simp only [xtsize] at h
        cases hc0 : c0 with
        | none =>
          cases hc1 : c1 with
          | none => simp [xpath_tree_eq_child, ocapturesOf]
          | some b =>
            have hb : xtsize b ≤ n := by
              rw [hc1] at h
              simp [oxtsize] at h
              omega
            simp only [xpath_tree_eq_child, ocapturesOf]
            rw [ih b vec hb]
            simp
        | some a =>
          have ha : xtsize a ≤ n := by
            rw [hc0] at h
            simp [oxtsize] at h
            omega
          simp only [xpath_tree_eq_child, ocapturesOf]
          rw [ih a vec ha]
          cases hc1 : c1 with
          | none => simp [xpath_tree_eq_child, ocapturesOf]
          | some b =>
            have hb : xtsize b ≤ n := by
              rw [hc0, hc1] at h
              simp [oxtsize] at h
              omega
            simp only [xpath_tree_eq_child, ocapturesOf]
            rw [ih b (vec ++ capturesOf a) hb]
            simp

/-- Helper: comparing an optional child slot with itself succeeds and
appends that slot's outermost flagged subtrees. -/
theorem xpath_tree_eq_child_self (o : Option xpath_tree)
    (vec : List xpath_tree) :
    xpath_tree_eq_child o o vec = (true, vec ++ ocapturesOf o) := by
  cases o with
  | none => simp [xpath_tree_eq_child, ocapturesOf]
  | some a =>
    simp only [xpath_tree_eq_child, ocapturesOf]
    exact xpath_tree_eq_self (xtsize a) a vec (le_refl _)

/-- C2 counterexample: a match-flagged pattern node of kind node-test
against a candidate of kind step is reported not equal and captures
nothing, although the claim requires the match flag to short-circuit
successfully regardless of the candidate's kind. -/
theorem xpath_tree_eq_matchflag_kind_mismatch :
    c2pat.xmatch = true ∧
    xpath_tree_eq c2pat c2cand [] = (false, []) :=
  ⟨rfl, rfl⟩

/-- C2 (amended): once the kind check passes - same kind, or both nodes
numeric/string literal primaries - a match-flagged pattern node
short-circuits successfully regardless of operand codes, strings or
children, appending the candidate's subtree to the capture sequence. -/
theorem xpath_tree_eq_matchflag_shortcircuit (xt1 xt2 : xpath_tree)
    (vec : List xpath_tree) (hm : xt1.xmatch = true)
    (hty : xt1.ty = xt2.ty ∨
      ((xt1.ty = XpType.XP_PRIME_NR ∨ xt1.ty = XpType.XP_PRIME_STR) ∧
       (xt2.ty = XpType.XP_PRIME_NR ∨ xt2.ty = XpType.XP_PRIME_STR))) :
    xpath_tree_eq xt1 xt2 vec = (true, vec ++ [xt2]) := by
  cases xt1 with
  | mk t1 i1 d1 s01 s11 n1 m1 c01 c11 =>
    cases xt2 with
    | mk t2 i2 d2 s02 s12 n2 m2 c02 c12 =>
      simp only [xpath_tree.ty] at hty
      simp only [xpath_tree.xmatch] at hm
      rw [xpath_tree_eq]
      rw [if_neg (by tauto)]
      rw [if_pos hm]
      simp [xpath_tree_append]

/-- C2 witness: a match-flagged node-test pattern against a node-test
candidate with different strings and children. -/
theorem xpath_tree_eq_matchflag_shortcircuit_witness :
    c2pat.xmatch = true ∧
    xpath_tree_eq c2pat c3outer [] = (true, [c3outer]) :=
  ⟨rfl, xpath_tree_eq_matchflag_shortcircuit c2pat c3outer [] rfl (Or.inl rfl)⟩

/-- C3 counterexample: in a self-match of a tree whose root and first child
are both match-flagged, the root is captured but the flagged child's
subtree is not in the capture sequence, although the claim requires every
flagged node's subtree to be contained in it. -/
theorem xpath_tree_eq_nested_flag_not_captured :
    (xpath_tree_eq c3outer c3outer []).1 = true ∧
    c3inner.xmatch = true ∧
    c3outer.c0 = some c3inner ∧
    c3inner ∉ (xpath_tree_eq c3outer c3outer []).2 := by
  refine ⟨rfl, rfl, rfl, ?_⟩
  have h : (xpath_tree_eq c3outer c3outer []).2 = [c3outer] := rfl
  rw [h]
  intro hmem
  rcases List.mem_singleton.mp hmem with h2
  simp [c3inner, c3outer] at h2

/-- C3 (amended): matching any tree against itself is always a match, and
the capture sequence is exactly the outermost match-flagged subtrees in
preorder (capturesOf): every flagged node with no flagged proper ancestor
contributes its exact subtree, while flagged nodes beneath another flagged
node are not separately captured. -/
theorem xpath_tree_eq_refl_captures :
    ∀ (t : xpath_tree) (vec : List xpath_tree),
      xpath_tree_eq t t vec = (true, vec ++ capturesOf t) :=
  fun t vec => xpath_tree_eq_self (xtsize t) t vec (le_refl _)

/-- C4: the tree-equality comparison reports equal only when the two node
kinds coincide or both nodes are literal primaries (numeric or string), and
conversely a numeric-literal node and a string-literal node do compare
equal whenever their remaining operands and children compare equal. -/
theorem xpath_tree_eq_kind_rules :
    (∀ (xt1 xt2 : xpath_tree) (vec : List xpath_tree),
      (xpath_tree_eq xt1 xt2 vec).1 = true →
      xt1.ty = xt2.ty ∨
        ((xt1.ty = XpType.XP_PRIME_NR ∨ xt1.ty = XpType.XP_PRIME_STR) ∧
         (xt2.ty = XpType.XP_PRIME_NR ∨ xt2.ty = XpType.XP_PRIME_STR))) ∧
    (∀ (xt1 xt2 : xpath_tree) (vec : List xpath_tree),
      (xt1.ty = XpType.XP_PRIME_NR ∨ xt1.ty = XpType.XP_PRIME_STR) →
      (xt2.ty = XpType.XP_PRIME_NR ∨ xt2.ty = XpType.XP_PRIME_STR) →
      xt1.xint = xt2.xint → xt1.xdouble = xt2.xdouble →
      xt1.s0 = xt2.s0 → xt1.s1 = xt2.s1 →
      xt1.c0 = xt2.c0 → xt1.c1 = xt2.c1 →
      (xpath_tree_eq xt1 xt2 vec).1 = true) := by
  constructor
  · intro xt1 xt2 vec h
    cases xt1 with
    | mk t1 i1 d1 s01 s11 n1 m1 c01 c11 =>
      cases xt2 with
      | mk t2 i2 d2 s02 s12 n2 m2 c02 c12 =>
        simp only [xpath_tree.ty]
        by_cases hg : (t1 ≠ t2 ∧
            ¬((t1 = XpType.XP_PRIME_NR ∨ t1 = XpType.XP_PRIME_STR) ∧
              (t2 = XpType.XP_PRIME_NR ∨ t2 = XpType.XP_PRIME_STR)))
        · rw [xpath_tree_eq, if_pos hg] at h
          simp at h
        · push_neg at hg
          by_cases he : t1 = t2
          · exact Or.inl he
          · exact Or.inr (hg he)
  · intro xt1 xt2 vec hty1 hty2 hi hd hs0 hs1 hc0 hc1
    cases xt1 with
    | mk t1 i1 d1 s01 s11 n1 m1 c01 c11 =>
      cases xt2 with
      | mk t2 i2 d2 s02 s12 n2 m2 c02 c12 =>
        simp only [xpath_tree.ty] at hty1 hty2
        simp only [xpath_tree.xint] at hi
        simp only [xpath_tree.xdouble] at hd
        simp only [xpath_tree.s0] at hs0
        simp only [xpath_tree.s1] at hs1
        simp only [xpath_tree.c0] at hc0
        simp only [xpath_tree.c1] at hc1
        subst hi hd hs0 hs1 hc0 hc1
        rw [xpath_tree_eq]
        rw [if_neg (by tauto)]
        by_cases hm1 : m1
        · rw [if_pos hm1]
        · rw [if_neg hm1]
          rw [if_neg (by simp)]
          rw [if_neg (by simp)]
          rw [if_neg (by simp [clicon_strcmp_self])]
          rw [if_neg (by simp [clicon_strcmp_self])]
          simp [xpath_tree_eq_child_self]

/-- C4 witness: a numeric-literal node and a string-literal node agreeing
on the compared operands evaluate as equal, and the only-if direction at a
concrete pair whose kinds coincide. -/
theorem xpath_tree_eq_kind_rules_witness :
    (xpath_tree_eq c4nr c4str []).1 = true ∧
    (c4nr.ty = c4str.ty ∨
      ((c4nr.ty = XpType.XP_PRIME_NR ∨ c4nr.ty = XpType.XP_PRIME_STR) ∧
       (c4str.ty = XpType.XP_PRIME_NR ∨ c4str.ty = XpType.XP_PRIME_STR))) := by
  have hb := xpath_tree_eq_kind_rules.2 c4nr c4str []
    (Or.inl rfl) (Or.inr rfl) rfl rfl rfl rfl rfl rfl
  exact ⟨hb, xpath_tree_eq_kind_rules.1 c4nr c4str [] hb⟩

/-- Helper: a prefix looks up to nothing in the output context exactly when
it is not among the context's keys. -/
theorem nsc1_get_none_iff (nsc : List (String × String)) (p : String) :
    nsc1_get nsc p = none ↔ p ∉ nsc.map Prod.fst := by
  rw [nsc1_get, Option.map_eq_none', List.find?_eq_none]
  constructor
  · intro h hp
    rcases List.mem_map.mp hp with ⟨e, he, hf⟩
    have he2 := h e he
    simp at he2
    exact he2 hf
  · intro h e he
    simp
    intro hf
    exact h (List.mem_map.mpr ⟨e, he, hf⟩)

/-- Helper: a successful lookup means the prefix is among the keys. -/
theorem nsc1_get_some_mem (nsc : List (String × String)) (p : String)
    (v : String) (h : nsc1_get nsc p = some v) : p ∈ nsc.map Prod.fst := by
  rw [nsc1_get] at h
  rcases Option.map_eq_some'.mp h with ⟨e, hfind, hv⟩
  have hmem := List.mem_of_find?_eq_some hfind
  have hpred := List.find?_some hfind
  simp at hpred
  exact List.mem_map.mpr ⟨e, hmem, hpred⟩

/-- Helper: after the conditional add of the self step, the canonical
prefix is among the keys. -/
theorem mem_keys_self_step (nsc : List (String × String)) (p ns : String) :
    p ∈ ((if nsc1_get nsc p = none then xml_nsctx_add nsc p ns
          else nsc).map Prod.fst) := by
  by_cases hg : nsc1_get nsc p = none
  · rw [if_pos hg]
    simp [xml_nsctx_add]
  · rw [if_neg hg]
    rcases Option.ne_none_iff_exists'.mp hg with ⟨v, hv⟩
    exact nsc1_get_some_mem nsc p v hv

/-- Helper: the conditional add of the self step only grows the key set. -/
theorem keys_mono_self_step (nsc : List (String × String)) (p ns k : String)
    (hk : k ∈ nsc.map Prod.fst) :
    k ∈ ((if nsc1_get nsc p = none then xml_nsctx_add nsc p ns
          else nsc).map Prod.fst) := by
  by_cases hg : nsc1_get nsc p = none
  · rw [if_pos hg]
    rw [xml_nsctx_add, List.map_append, List.mem_append]
    exact Or.inl hk
  · rw [if_neg hg]
    exact hk

/-- Helper: the conditional add of the self step preserves key
distinctness, because a pair is only added when its prefix is unbound. -/
theorem nodup_self_step (nsc : List (String × String)) (p ns : String)
    (h : (nsc.map Prod.fst).Nodup) :
    (((if nsc1_get nsc p = none then xml_nsctx_add nsc p ns
       else nsc).map Prod.fst)).Nodup := by
  by_cases hg : nsc1_get nsc p = none
  · rw [if_pos hg]
    have hnot := (nsc1_get_none_iff nsc p).mp hg
    rw [xml_nsctx_add, List.map_append]
    simp [List.nodup_append, h]
    intro a hab
    exact hnot (List.mem_map.mpr ⟨(p, a), hab, rfl⟩)
  · rw [if_neg hg]
    exact h

/-- Helper: the Bool gate of needs_resolution as a proposition. -/
theorem needs_resolution_iff (ty : XpType) (i : Int) (d : Rat)
    (s0 s1 nr : Option String) (m : Bool) (c0 c1 : Option xpath_tree) :
    needs_resolution (.mk ty i d s0 s1 nr m c0 c1) = true ↔
      (ty = XpType.XP_NODE ∧ ¬(s1 = some "*")) := by
  simp [needs_resolution]

/-- Helper: a node that is not a non-wildcard node-test passes the self
step unchanged. -/
theorem traverse_self_skip (yspec : List yang_module)
    (nsc0 : List (Option String × String)) (ty : XpType)
    (s0 s1 : Option String) (nsc1 : List (String × String))
    (h : ¬(ty = XpType.XP_NODE ∧ ¬(s1 = some "*"))) :
    traverse_self yspec nsc0 ty s0 s1 nsc1 = .inl (s0, nsc1) := by
  rw [traverse_self, if_neg h]

/-- Helper: a non-wildcard node-test whose prefix fully resolves passes the
self step with the canonical prefix written back and the canonical pair
added unless its prefix is already bound. -/
theorem traverse_self_resolved (yspec : List yang_module)
    (nsc0 : List (Option String × String)) (ty : XpType)
    (s0 s1 : Option String) (nsc1 : List (String × String)) (p ns : String)
    (h : ty = XpType.XP_NODE ∧ ¬(s1 = some "*"))
    (hr : node_resolve yspec nsc0 s0 = some (p, ns)) :
    traverse_self yspec nsc0 ty s0 s1 nsc1 =
      .inl (if s0 = none ∨ ¬(s0 = some p) then some p else s0,
            if nsc1_get nsc1 p = none then xml_nsctx_add nsc1 p ns
            else nsc1) := by
  rw [traverse_self, if_pos h]
  rw [node_resolve] at hr
  cases hg : xml_nsctx_get nsc0 s0 with
  | none => rw [hg] at hr; simp at hr
  | some nsv =>
    rw [hg] at hr
    dsimp only at hr ⊢
    cases hm : yang_find_module_by_namespace yspec nsv with
    | none => rw [hm] at hr; simp at hr
    | some ymod =>
      rw [hm] at hr
      dsimp only at hr ⊢
      cases hp : yang_find_mypfx ymod with
      | none => rw [hp] at hr; simp at hr
      | some p1 =>
        rw [hp] at hr
        dsimp only at hr ⊢
        simp at hr
        obtain ⟨hp1, hns⟩ := hr
        subst hp1 hns
        rfl

/-- Helper: a non-wildcard node-test whose prefix does not resolve makes
the self step fail with a reason. -/
theorem traverse_self_fails (yspec : List yang_module)
    (nsc0 : List (Option String × String)) (ty : XpType)
    (s0 s1 : Option String) (nsc1 : List (String × String))
    (h : ty = XpType.XP_NODE ∧ ¬(s1 = some "*"))
    (hr : node_resolve yspec nsc0 s0 = none) :
    ∃ r, traverse_self yspec nsc0 ty s0 s1 nsc1 = .inr r := by
  rw [traverse_self, if_pos h]
  rw [node_resolve] at hr
  cases hg : xml_nsctx_get nsc0 s0 with
  | none => exact ⟨_, rfl⟩
  | some nsv =>
    rw [hg] at hr
    dsimp only at hr ⊢
    cases hm : yang_find_module_by_namespace yspec nsv with
    | none => exact ⟨_, rfl⟩
    | some ymod =>
      rw [hm] at hr
      dsimp only at hr ⊢
      cases hp : yang_find_mypfx ymod with
      | none => exact ⟨_, rfl⟩
      | some p1 => rw [hp] at hr; simp at hr

/-- Helper: when no node-test in the tree fails resolution, canonical
traversal succeeds; the returned tree is the specification-side rewrite,
the output context's keys only grow, every canonical prefix actually used
ends up bound, and key distinctness is preserved.  Strong induction on the
tree size. -/
theorem traverse_ok_props (yspec : List yang_module)
    (nsc0 : List (Option String × String)) :
    ∀ (n : Nat) (t : xpath_tree) (nsc1 : List (String × String)),
      xtsize t ≤ n →
      tree_resolution_fails yspec nsc0 t = false →
      ∃ nsc1x,
        traverse_canonical yspec nsc0 t nsc1 =
          .ok (canon_rewrite_spec yspec nsc0 t) nsc1x ∧
        (∀ k, k ∈ nsc1.map Prod.fst → k ∈ nsc1x.map Prod.fst) ∧
        (∀ pr, pr ∈ canon_pairs yspec nsc0 t → pr.1 ∈ nsc1x.map Prod.fst) ∧
        ((nsc1.map Prod.fst).Nodup → (nsc1x.map Prod.fst).Nodup) := by
  intro n
  induction n with
  | zero =>
    intro t nsc1 hsz hfail
    have := xtsize_pos t
    omega
  | succ n ih =>
    intro t nsc1 hsz hfail
    cases t with
    | mk ty i d s0 s1 nr m c0 c1 =>
      rw [tree_resolution_fails] at hfail
      simp only [Bool.or_eq_false_iff] at hfail
      obtain ⟨⟨hself, hc0f⟩, hc1f⟩ := hfail
      simp only [xtsize] at hsz
      have hstep : ∀ (o : Option xpath_tree) (nsc1s : List (String × String)),
          oxtsize o ≤ n → otree_resolution_fails yspec nsc0 o = false →
          ∃ nsc1t,
            traverse_child yspec nsc0 o nsc1s =
              .cok (ocanon_rewrite_spec yspec nsc0 o) nsc1t ∧
            (∀ k, k ∈ nsc1s.map Prod.fst → k ∈ nsc1t.map Prod.fst) ∧
            (∀ pr, pr ∈ ocanon_pairs yspec nsc0 o →
              pr.1 ∈ nsc1t.map Prod.fst) ∧
            ((nsc1s.map Prod.fst).Nodup → (nsc1t.map Prod.fst).Nodup) := by
        intro o nsc1s hos hof
        cases o with
        | none =>
          refine ⟨nsc1s, ?_, fun k hk => hk, ?_, fun hn => hn⟩
          · simp [traverse_child, ocanon_rewrite_spec]
          · intro pr hpr
            simp [ocanon_pairs] at hpr
        | some a =>
          simp only [oxtsize] at hos
          simp only [otree_resolution_fails] at hof
          rcases ih a nsc1s hos hof with ⟨nsc1t, hta, hmono, hprs, hnd⟩
          refine ⟨nsc1t, ?_, hmono, ?_, hnd⟩
          · simp [traverse_child, hta, ocanon_rewrite_spec]
          · intro pr hpr
            simp only [ocanon_pairs] at hpr
            exact hprs pr hpr
      have hsz0 : oxtsize c0 ≤ n := by omega
      have hsz1 : oxtsize c1 ≤ n := by omega
      by_cases hneed : (ty = XpType.XP_NODE ∧ ¬(s1 = some "*"))
      · have hneedb : needs_resolution (.mk ty i d s0 s1 nr m c0 c1) = true :=
          (needs_resolution_iff ty i d s0 s1 nr m c0 c1).mpr hneed
        have hnone : (node_resolve yspec nsc0 s0).isNone = false := by
          rcases Bool.and_eq_false_iff.mp hself with hx | hx
          · rw [hneedb] at hx
            exact absurd hx (by simp)
          · exact hx
        have hsome : (node_resolve yspec nsc0 s0).isSome = true := by
          cases hnr : node_resolve yspec nsc0 s0 with
          | none => rw [hnr] at hnone; simp at hnone
          | some pr => simp
        rcases Option.isSome_iff_exists.mp hsome with ⟨pr, hpr⟩
        obtain ⟨p, ns⟩ := pr
        rw [traverse_canonical]
        rw [traverse_self_resolved yspec nsc0 ty s0 s1 nsc1 p ns hneed hpr]
        set nsc1self := if nsc1_get nsc1 p = none then xml_nsctx_add nsc1 p ns
            else nsc1 with hdefself
        dsimp only
        rcases hstep c0 nsc1self hsz0 hc0f with ⟨nsc1a, hca, hmonoa, hprsa, hnda⟩
        rw [hca]
        dsimp only
        rcases hstep c1 nsc1a hsz1 hc1f with ⟨nsc1b, hcb, hmonob, hprsb, hndb⟩
        rw [hcb]
        dsimp only
        refine ⟨nsc1b, ?_, ?_, ?_, ?_⟩
        · rw [canon_rewrite_spec]
          simp only [hneedb, hpr, if_pos]
        · intro k hk
          exact hmonob k (hmonoa k (keys_mono_self_step nsc1 p ns k hk))
        · intro q hq
          rw [canon_pairs] at hq
          simp only [hneedb, hpr, if_pos, List.mem_append] at hq
          rcases hq with (hq | hq) | hq
          · have hq2 : q = (p, ns) := by simpa using hq
            subst hq2
            exact hmonob p (hmonoa p (mem_keys_self_step nsc1 p ns))
          · exact hmonob q.1 (hprsa q hq)
          · exact hprsb q hq
        · intro hn
          exact hndb (hnda (nodup_self_step nsc1 p ns hn))
      · have hneedb : needs_resolution (.mk ty i d s0 s1 nr m c0 c1) = false := by
          rw [Bool.eq_false_iff]
          intro hc
          exact hneed ((needs_resolution_iff ty i d s0 s1 nr m c0 c1).mp hc)
        rw [traverse_canonical]
        rw [traverse_self_skip yspec nsc0 ty s0 s1 nsc1 hneed]
        dsimp only
        rcases hstep c0 nsc1 hsz0 hc0f with ⟨nsc1a, hca, hmonoa, hprsa, hnda⟩
        rw [hca]
        dsimp only
        rcases hstep c1 nsc1a hsz1 hc1f with ⟨nsc1b, hcb, hmonob, hprsb, hndb⟩
        rw [hcb]
        dsimp only
        refine ⟨nsc1b, ?_, ?_, ?_, ?_⟩
        · rw [canon_rewrite_spec]
          simp only [hneedb, if_neg, Bool.false_eq_true, if_false]
        · intro k hk
          exact hmonob k (hmonoa k hk)
        · intro q hq
          rw [canon_pairs] at hq
          simp only [hneedb, Bool.false_eq_true, if_false, List.nil_append,
            List.mem_append] at hq
          rcases hq with hq | hq
          · exact hmonob q.1 (hprsa q hq)
          · exact hprsb q hq
        · intro hn
          exact hndb (hnda hn)

/-- Helper: when some node-test in the tree fails resolution, canonical
traversal reports the failure with a reason. -/
theorem traverse_fails_failed (yspec : List yang_module)
    (nsc0 : List (Option String × String)) :
    ∀ (n : Nat) (t : xpath_tree) (nsc1 : List (String × String)),
      xtsize t ≤ n →
      tree_resolution_fails yspec nsc0 t = true →
      ∃ r, traverse_canonical yspec nsc0 t nsc1 = .failed r := by
  intro n
  induction n with
  | zero =>
    intro t nsc1 hsz hfail
    have := xtsize_pos t
    omega
  | succ n ih =>
    intro t nsc1 hsz hfail
    cases t with
    | mk ty i d s0 s1 nr m c0 c1 =>
      rw [tree_resolution_fails] at hfail
      simp only [xtsize] at hsz
      have hsz0 : oxtsize c0 ≤ n := by omega
      have hsz1 : oxtsize c1 ≤ n := by omega
      rw [Bool.or_eq_true, Bool.or_eq_true] at hfail
      by_cases hselfb : (needs_resolution (.mk ty i d s0 s1 nr m c0 c1)
          && (node_resolve yspec nsc0 s0).isNone) = true
      · obtain ⟨h1, h2⟩ := Bool.and_eq_true_iff.mp hselfb
        have hneed : ty = XpType.XP_NODE ∧ ¬(s1 = some "*") :=
          (needs_resolution_iff ty i d s0 s1 nr m c0 c1).mp h1
        have hres : node_resolve yspec nsc0 s0 = none :=
          Option.isNone_iff_eq_none.mp h2
        rcases traverse_self_fails yspec nsc0 ty s0 s1 nsc1 hneed hres
          with ⟨r, hr⟩
        refine ⟨r, ?_⟩
        rw [traverse_canonical, hr]
      · have hch : otree_resolution_fails yspec nsc0 c0 = true ∨
            otree_resolution_fails yspec nsc0 c1 = true := by
          rcases hfail with (h | h) | h
          · exact absurd h hselfb
          · exact Or.inl h
          · exact Or.inr h
        have hselfok : ∃ s0x nsc1x,
            traverse_self yspec nsc0 ty s0 s1 nsc1 = .inl (s0x, nsc1x) := by
          by_cases hneed : (ty = XpType.XP_NODE ∧ ¬(s1 = some "*"))
          · cases hnr : node_resolve yspec nsc0 s0 with
            | none =>
              exfalso
              apply hselfb
              rw [Bool.and_eq_true_iff]
              refine ⟨(needs_resolution_iff ty i d s0 s1 nr m c0 c1).mpr hneed, ?_⟩
              rw [hnr]
              rfl
            | some pr =>
              obtain ⟨p, ns⟩ := pr
              exact ⟨_, _,
                traverse_self_resolved yspec nsc0 ty s0 s1 nsc1 p ns hneed hnr⟩
          · exact ⟨s0, nsc1, traverse_self_skip yspec nsc0 ty s0 s1 nsc1 hneed⟩
        rcases hselfok with ⟨s0x, nsc1x, hsx⟩
        rw [traverse_canonical, hsx]
        dsimp only
        rcases hch with hf0 | hf1
        · cases hc0 : c0 with
          | none =>
            rw [hc0] at hf0
            simp [otree_resolution_fails] at hf0
          | some a =>
            rw [hc0] at hf0
            simp only [otree_resolution_fails] at hf0
            have hsa : xtsize a ≤ n := by
              rw [hc0] at hsz0
              simpa [oxtsize] using hsz0
            rcases ih a nsc1x hsa hf0 with ⟨r, hra⟩
            refine ⟨r, ?_⟩
            simp [traverse_child, hra]
        · cases hres0 : traverse_child yspec nsc0 c0 nsc1x with
          | cfailed r =>
            exact ⟨r, rfl⟩
          | cok c0x nsc1a =>
            dsimp only
            cases hc1 : c1 with
            | none =>
              rw [hc1] at hf1
              simp [otree_resolution_fails] at hf1
            | some b =>
              rw [hc1] at hf1
              simp only [otree_resolution_fails] at hf1
              have hsb : xtsize b ≤ n := by
                rw [hc1] at hsz1
                simpa [oxtsize] using hsz1
              rcases ih b nsc1a hsb hf1 with ⟨r, hrb⟩
              refine ⟨r, ?_⟩
              simp [traverse_child, hrb]

/-- C5: canonicalization yields exactly one of three outcomes; it is fatal
exactly when parsing failed, and a policy failure (status 0 with a
human-readable reason) occurs exactly when some node-test's prefix has no
namespace bound in the input context, or no module owns the resolved
namespace, or the owning module declares no prefix.  (Allocation failures,
the other fatal source, are outside the model.) -/
theorem xpath2canonical_tristate (parse0 : Option xpath_tree)
    (nsc0 : List (Option String × String)) (yspec : List yang_module) :
    (xpath2canonical parse0 nsc0 yspec = .fatal ↔ parse0 = none) ∧
    (∀ t, parse0 = some t →
      ((∃ r, xpath2canonical parse0 nsc0 yspec = .failed r) ↔
        tree_resolution_fails yspec nsc0 t = true)) := by
  cases parse0 with
  | none =>
    constructor
    · simp [xpath2canonical]
    · intro t ht
      cases ht
  | some t0 =>
    constructor
    · constructor
      · intro h
        rw [xpath2canonical] at h
        cases hres : traverse_canonical yspec nsc0 t0 [] with
        | failed r =>
          rw [hres] at h
          cases h
        | ok tx nsc1x =>
          rw [hres] at h
          cases h
      · intro h
        cases h
    · intro t ht
      injection ht with ht2
      subst ht2
      constructor
      · rintro ⟨r, hr⟩
        by_cases hf : tree_resolution_fails yspec nsc0 t0 = true
        · exact hf
        · exfalso
          have hff : tree_resolution_fails yspec nsc0 t0 = false := by
            rw [Bool.eq_false_iff]
            exact hf
          rcases traverse_ok_props yspec nsc0 (xtsize t0) t0 [] (le_refl _) hff
            with ⟨nsc1x, hok, _, _, _⟩
          rw [xpath2canonical, hok] at hr
          cases hr
      · intro hf
        rcases traverse_fails_failed yspec nsc0 (xtsize t0) t0 [] (le_refl _) hf
          with ⟨r, hfe⟩
        refine ⟨r, ?_⟩
        rw [xpath2canonical, hfe]

/-- C5 witness: a NULL-parse input is fatal, and a node-test with an
unbound prefix is a policy failure. -/
theorem xpath2canonical_tristate_witness :
    xpath2canonical none [] [] = .fatal ∧
    (∃ r, xpath2canonical (some c5node) [] [] = .failed r) := by
  constructor
  · exact (xpath2canonical_tristate none [] []).1.mpr rfl
  · exact ((xpath2canonical_tristate (some c5node) [] []).2 c5node rfl).mpr rfl

/-- C6 counterexample: two modules declare the same canonical prefix p for
different namespaces, and both are used by the tree's node-tests; the
traversal succeeds, but the used canonical pair (p, urn:b) is never added:
the output context ends as just [(p, urn:a)], contradicting the claim that
each used pair is added exactly once. -/
theorem traverse_canonical_used_pair_lost :
    traverse_canonical c6yspec c6nsc0 c6tree [] =
      .ok c6rewritten [("p", "urn:a")] ∧
    ("p", "urn:b") ∈ canon_pairs c6yspec c6nsc0 c6tree ∧
    ("p", "urn:b") ∉ [(("p" : String), ("urn:a" : String))] := by
  refine ⟨rfl, ?_, by decide⟩
  have h : canon_pairs c6yspec c6nsc0 c6tree =
      [("p", "urn:a"), ("p", "urn:b")] := rfl
  rw [h]
  decide

/-- C6 (amended): a successful canonical traversal rewrites every
non-wildcard node-test's stored prefix to the owning module's canonical
prefix when it differs or is absent, leaves wildcard node tests untouched
(both captured by the rewrite being exactly canon_rewrite_spec), binds
every canonical prefix actually used in the output context, and binds each
prefix at most once; a used pair whose prefix is already bound - possibly
to a different namespace - is not added again. -/
theorem traverse_canonical_rewrite_dedup (yspec : List yang_module)
    (nsc0 : List (Option String × String)) (t tx : xpath_tree)
    (nsc1x : List (String × String))
    (h : traverse_canonical yspec nsc0 t [] = .ok tx nsc1x) :
    tx = canon_rewrite_spec yspec nsc0 t ∧
    (nsc1x.map Prod.fst).Nodup ∧
    (∀ pr, pr ∈ canon_pairs yspec nsc0 t → pr.1 ∈ nsc1x.map Prod.fst) := by
  have hff : tree_resolution_fails yspec nsc0 t = false := by
    by_cases hf : tree_resolution_fails yspec nsc0 t = true
    · rcases traverse_fails_failed yspec nsc0 (xtsize t) t [] (le_refl _) hf
        with ⟨r, hr⟩
      rw [hr] at h
      cases h
    · rw [Bool.eq_false_iff]
      exact hf
  rcases traverse_ok_props yspec nsc0 (xtsize t) t [] (le_refl _) hff
    with ⟨nsc1y, hok, hmono, hprs, hnd⟩
  rw [hok] at h
  injection h with h1 h2
  subst h2
  refine ⟨h1.symm, hnd (by simp), ?_⟩
  intro pr hpr
  exact hprs pr hpr

/-- C6 witness: in the two-module scenario the returned tree is exactly the
specification-side rewrite, the output keys are distinct, and every used
canonical prefix is bound. -/
theorem traverse_canonical_rewrite_dedup_witness :
    c6rewritten = canon_rewrite_spec c6yspec c6nsc0 c6tree ∧
    (([(("p" : String), ("urn:a" : String))].map Prod.fst).Nodup) ∧
    (∀ pr, pr ∈ canon_pairs c6yspec c6nsc0 c6tree →
      pr.1 ∈ [(("p" : String), ("urn:a" : String))].map Prod.fst) :=
  traverse_canonical_rewrite_dedup c6yspec c6nsc0 c6tree c6rewritten
    [("p", "urn:a")] rfl
